import Mathlib

/-!
Shallow embedding of the antcode-portal web application (src/base/models.py and
src/base/views.py) and verification of its specification.

Modelling conventions:
* database rows are Lean structures whose fields follow the Django models;
  foreign keys are the referenced row's primary key (a `Nat`);
* the whole database is a `DB` record of row lists plus a fresh-id counter
  standing for the auto-increment primary keys;
* each view becomes a function from the database and the request data to a
  `ViewOut` (HTTP response kind, flash messages added during the request, and
  the database after the request); `transaction.atomic` plus
  `except Exception` becomes "the failing branch returns the unchanged
  database";
* `DateTimeField` values that the claims never inspect are strings carried
  through from the request; `FloatField` (`hours_worked`) is modelled as `Int`,
  since no claim depends on float arithmetic, only on the value being stored,
  updated or left alone.
-/

namespace AntcodePortal

/-- The `User.UserType` text choices of `models.py`. -/
inductive UserType where
  | student
  | mentor
deriving DecidableEq, Repr

/-- A row of the `User` model (the fields the views read or write). -/
structure User where
  id : Nat
  username : String
  email : String
  user_type : UserType
  first_name : String
  last_name : String
  phone : String
  bio : String
  skills : String
deriving DecidableEq, Repr

/-- A row of the `Option` model (called `OptionRow` because Lean reserves
`Option`). -/
structure OptionRow where
  id : Nat
  name : String
deriving DecidableEq, Repr

/-- A row of the `MentorProfile` model; `user` and `option` are one-to-one
foreign keys. -/
structure MentorProfile where
  id : Nat
  user : Nat
  option : Nat
deriving DecidableEq, Repr

/-- A row of the `StudentProfile` model. -/
structure StudentProfile where
  id : Nat
  user : Nat
  option : Nat
deriving DecidableEq, Repr

/-- A row of the `Report` model. -/
structure Report where
  id : Nat
  title : String
  tags : String
  hours_worked : Int
  status : String
  content : String
  student : Nat
  option : Nat
  mark : Int
deriving DecidableEq, Repr

/-- A row of the `Task` model (the many-to-many `students` relation lives in
`TaskStudent` rows, mirroring the through table). -/
structure Task where
  id : Nat
  name : String
  option : Nat
  mentor : Nat
  content : String
  due_date : String
deriving DecidableEq, Repr

/-- A row of the through table of `Task.students`. -/
structure TaskStudent where
  task : Nat
  student : Nat
deriving DecidableEq, Repr

/-- A row of the `Project` model. -/
structure Project where
  id : Nat
  name : String
  option : Nat
  mentor : Nat
  content : String
  due_date : String
deriving DecidableEq, Repr

/-- A row of the through table of `Project.students`. -/
structure ProjectStudent where
  project : Nat
  student : Nat
deriving DecidableEq, Repr

/-- A row of the `Course` model (the fields the views read). -/
structure Course where
  id : Nat
  title : String
  option : Nat
  order : Nat
deriving DecidableEq, Repr

/-- A row of the `StudentCourseProgress` model. -/
structure StudentCourseProgress where
  id : Nat
  student : Nat
  course : Nat
  completed : Bool
  reacted : Bool
deriving DecidableEq, Repr

/-- A row of the `EmojiReaction` model. -/
structure EmojiReaction where
  id : Nat
  student : Nat
  course : Nat
  emoji : String
deriving DecidableEq, Repr

/-- A row of the `Notification` model. -/
structure Notification where
  id : Nat
  user : Nat
  message : String
  is_read : Bool
deriving DecidableEq, Repr

/-- The relational state: one list per table plus the auto-increment counter
shared by all inserts (fresh primary keys are `nextId`, `nextId + 1`, ...). -/
structure DB where
  nextId : Nat
  users : List User
  options : List OptionRow
  mentor_profiles : List MentorProfile
  student_profiles : List StudentProfile
  reports : List Report
  tasks : List Task
  task_students : List TaskStudent
  projects : List Project
  project_students : List ProjectStudent
  courses : List Course
  progress : List StudentCourseProgress
  reactions : List EmojiReaction
  notifications : List Notification
deriving DecidableEq, Repr

/-- Kinds of HTTP responses the views produce: rendered template, redirect by
url name, `PermissionDenied` (HTTP 403), `Http404` (HTTP 404), and the JSON
bodies of `react_course` with their HTTP status code. -/
inductive HttpResp where
  | render (template : String)
  | redirectTo (urlname : String)
  | forbidden (msg : String)
  | notFound
  | jsonSuccess
  | jsonFailed (err : String) (code : Nat)
deriving DecidableEq, Repr

/-- The outcome of one request: the response, the flash messages the view
queued (in order), and the database afterwards. -/
structure ViewOut where
  resp : HttpResp
  flash : List String
  db : DB
deriving DecidableEq, Repr

/-- Look up `request.user` by primary key. -/
def DB.findUser (db : DB) (uid : Nat) : Option User :=
  db.users.find? (fun u => u.id == uid)

/-- The `get_object_or_404(StudentProfile, user=request.user)` lookup. -/
def DB.studentProfileOf (db : DB) (uid : Nat) : Option StudentProfile :=
  db.student_profiles.find? (fun sp => sp.user == uid)

/-- The `get_object_or_404(MentorProfile, user=request.user)` lookup. -/
def DB.mentorProfileOf (db : DB) (uid : Nat) : Option MentorProfile :=
  db.mentor_profiles.find? (fun mp => mp.user == uid)

/-- Ordering relation used by `Course.objects.order_by("order")`. -/
def courseLE (a b : Course) : Prop :=
  a.order ≤ b.order

instance : DecidableRel courseLE := fun a b => Nat.decLe a.order b.order

instance : IsTotal Course courseLE :=
  ⟨fun a b => Nat.le_total a.order b.order⟩

instance : IsTrans Course courseLE :=
  ⟨fun _ _ _ h h' => Nat.le_trans h h'⟩

/-- The queryset `Course.objects.filter(option=student.option).order_by("order")`
of the `courses` view. -/
def courses_listing (db : DB) (optId : Nat) : List Course :=
  List.insertionSort courseLE (db.courses.filter (fun c => c.option == optId))

/-- The queryset `StudentCourseProgress.objects.filter(student=student)` of the
`courses` view. -/
def progressOf (db : DB) (spId : Nat) : List StudentCourseProgress :=
  db.progress.filter (fun p => p.student == spId)

/-- Lookup in the dictionary built by `.in_bulk()`: with no arguments,
`in_bulk` keys the dictionary by the model's own primary key, so membership of
`k` means "some progress row whose `id` (not `course_id`) equals `k`". -/
def in_bulk_get (ps : List StudentCourseProgress) (k : Nat) : Option StudentCourseProgress :=
  ps.find? (fun p => p.id == k)

/-- The `next_course` computation of the `courses` view, as written: the first
course `c` (in `order`) such that `c.id not in progress or not
progress[c.id].completed`, where `progress` is the pk-keyed `in_bulk()`
dictionary. -/
def next_course (db : DB) (spId optId : Nat) : Option Course :=
  (courses_listing db optId).find? (fun c =>
    match in_bulk_get (progressOf db spId) c.id with
    | none => true
    | some p => !p.completed)

/-- Modelled from the spec: the "next incomplete course" as the spec describes
it — the first course, scanning the option's course list in ascending `order`,
for which the student has no progress record marked completed. -/
def next_course_spec (db : DB) (spId optId : Nat) : Option Course :=
  (courses_listing db optId).find? (fun c =>
    !(db.progress.any (fun p => p.student == spId && p.course == c.id && p.completed)))

/-- The `courses` view: students get the course page (its context holds
`courses_listing` and `next_course`); every other role gets an error flash
message and a redirect to `home`. -/
def courses_view (db : DB) (uid : Nat) : ViewOut :=
  match db.findUser uid with
  | none => ⟨HttpResp.notFound, [], db⟩
  | some u =>
    if u.user_type = UserType.student then
      match db.studentProfileOf uid with
      | none => ⟨HttpResp.notFound, [], db⟩
      | some _ => ⟨HttpResp.render "course-page.html", [], db⟩
    else
      ⟨HttpResp.redirectTo "home", ["Only students can access courses."], db⟩

/-- The error string of the uniqueness violation raised by the database when a
second reaction for the same `(student, course)` pair is inserted. -/
def uniqueReactionErr : String :=
  "UNIQUE constraint failed: base_emojireaction.student_id, base_emojireaction.course_id"

/-- Database effect of a successful `react_course` POST: in one transaction
the reaction row is inserted and the matching progress rows (zero or one) get
`reacted=True`. -/
def reactSuccDB (db : DB) (spId cId : Nat) (emoji : String) : DB :=
  { db with
    nextId := db.nextId + 1
    reactions := db.reactions ++ [⟨db.nextId, spId, cId, emoji⟩]
    progress := db.progress.map (fun p =>
      if p.student == spId && p.course == cId then { p with reacted := true } else p) }

/-- The `react_course` view. A non-student gets JSON `failed` with HTTP 403;
an empty emoji gets JSON `failed` with HTTP 400; inside the `try` block and
`transaction.atomic`, a missing profile or course raises (caught as a generic
exception, JSON `failed` 400), a duplicate `(student, course)` reaction
violates the `unique_together` constraint (rollback, JSON `failed` 400), and
otherwise the success transaction `reactSuccDB` commits. -/
def react_course (db : DB) (uid course_id : Nat) (emoji : String) : HttpResp × DB :=
  match db.findUser uid with
  | none => (HttpResp.notFound, db)
  | some u =>
    if u.user_type ≠ UserType.student then
      (HttpResp.jsonFailed "Unauthorized" 403, db)
    else if emoji = "" then
      (HttpResp.jsonFailed "Invalid emoji" 400, db)
    else
      match db.studentProfileOf uid with
      | none => (HttpResp.jsonFailed "No StudentProfile matches the given query." 400, db)
      | some sp =>
        match db.courses.find? (fun c => c.id == course_id) with
        | none => (HttpResp.jsonFailed "No Course matches the given query." 400, db)
        | some c =>
          if db.reactions.any (fun r => r.student == sp.id && r.course == c.id) then
            (HttpResp.jsonFailed uniqueReactionErr 400, db)
          else
            (HttpResp.jsonSuccess, reactSuccDB db sp.id c.id emoji)

/-- The student dashboard view `index`: forbidden for non-students, 404 when
the student profile is missing, otherwise a render. -/
def index (db : DB) (uid : Nat) : ViewOut :=
  match db.findUser uid with
  | none => ⟨HttpResp.notFound, [], db⟩
  | some u =>
    if u.user_type ≠ UserType.student then
      ⟨HttpResp.forbidden "Only students can access this dashboard.", [], db⟩
    else
      match db.studentProfileOf uid with
      | none => ⟨HttpResp.notFound, [], db⟩
      | some _ => ⟨HttpResp.render "index.html", [], db⟩

/-- The `mentor_dashboard` view: forbidden for non-mentors, 404 when the
mentor profile is missing, otherwise a render. -/
def mentor_dashboard (db : DB) (uid : Nat) : ViewOut :=
  match db.findUser uid with
  | none => ⟨HttpResp.notFound, [], db⟩
  | some u =>
    if u.user_type ≠ UserType.mentor then
      ⟨HttpResp.forbidden "Unauthorized access.", [], db⟩
    else
      match db.mentorProfileOf uid with
      | none => ⟨HttpResp.notFound, [], db⟩
      | some _ => ⟨HttpResp.render "mentor.html", [], db⟩

/-- The `create_report` view: forbidden for non-students; a POST inserts the
report with the acting student's option and the default `mark = 0`; on a
missing profile the `Http404` raised inside the `try` block is caught and
becomes a flash message. -/
def create_report (db : DB) (uid : Nat) (isPost : Bool)
    (title tags : String) (hours : Int) (status content : String) : ViewOut :=
  match db.findUser uid with
  | none => ⟨HttpResp.notFound, [], db⟩
  | some u =>
    if u.user_type ≠ UserType.student then
      ⟨HttpResp.forbidden "Only students can submit reports.", [], db⟩
    else if isPost then
      match db.studentProfileOf uid with
      | none =>
        ⟨HttpResp.render "create-report.html",
          ["Error: No StudentProfile matches the given query."], db⟩
      | some sp =>
        ⟨HttpResp.redirectTo "reports", ["Report submitted."],
          { db with
            nextId := db.nextId + 1
            reports := db.reports ++
              [⟨db.nextId, title, tags, hours, status, content, uid, sp.option, 0⟩] }⟩
    else
      ⟨HttpResp.render "create-report.html", [], db⟩

/-- The `report_view` view: `get_object_or_404(Report, id=pk)`, then the role
branches of the source — a mentor may only see reports of their own option and
a POST stores the submitted mark; a student may only see their own report and
a POST changes nothing. -/
def report_view (db : DB) (uid pk : Nat) (isPost : Bool) (markVal : Int) : ViewOut :=
  match db.reports.find? (fun r => r.id == pk) with
  | none => ⟨HttpResp.notFound, [], db⟩
  | some r =>
    match db.findUser uid with
    | none => ⟨HttpResp.notFound, [], db⟩
    | some u =>
      if u.user_type = UserType.mentor then
        match db.mentorProfileOf uid with
        | none => ⟨HttpResp.notFound, [], db⟩
        | some m =>
          if r.option ≠ m.option then
            ⟨HttpResp.forbidden "You can only view reports from your option.", [], db⟩
          else if isPost then
            ⟨HttpResp.render "view-report.html",
              ["Mark assigned to report successfully."],
              { db with reports := db.reports.map (fun x =>
                  if x.id == r.id then { x with mark := markVal } else x) }⟩
          else
            ⟨HttpResp.render "view-report.html", [], db⟩
      else
        if r.student ≠ uid then
          ⟨HttpResp.forbidden "You can only view your own reports.", [], db⟩
        else
          ⟨HttpResp.render "view-report.html", [], db⟩

/-- The `edit_report` view: `get_object_or_404(Report, pk=pk,
student=request.user)` — a requester who does not own the report (any mentor
in particular) gets a 404; a POST by the owner rewrites title, tags,
hours_worked, status and content and nothing else. -/
def edit_report (db : DB) (uid pk : Nat) (isPost : Bool)
    (title tags : String) (hours : Int) (status content : String) : ViewOut :=
  match db.reports.find? (fun r => r.id == pk && r.student == uid) with
  | none => ⟨HttpResp.notFound, [], db⟩
  | some r =>
    if isPost then
      ⟨HttpResp.redirectTo "report-view", ["Report updated successfully."],
        { db with reports := db.reports.map (fun x =>
            if x.id == r.id then
              { x with title := title, tags := tags, hours_worked := hours,
                       status := status, content := content }
            else x) }⟩
    else
      ⟨HttpResp.render "create-report.html", [], db⟩

/-- The `delete_report` view: same owner-scoped 404 lookup as `edit_report`;
a POST deletes the row. -/
def delete_report (db : DB) (uid pk : Nat) (isPost : Bool) : ViewOut :=
  match db.reports.find? (fun r => r.id == pk && r.student == uid) with
  | none => ⟨HttpResp.notFound, [], db⟩
  | some r =>
    if isPost then
      ⟨HttpResp.redirectTo "reports", ["Report deleted."],
        { db with reports := db.reports.filter (fun x => !(x.id == r.id)) }⟩
    else
      ⟨HttpResp.render "delete.html", [], db⟩

/-- Database effect of the successful task-creation transaction: the new task
row plus the bulk-added through-table rows for the selected student ids. -/
def taskSuccDB (db : DB) (m : MentorProfile)
    (name content due : String) (student_ids : List Nat) : DB :=
  { db with
    nextId := db.nextId + 1
    tasks := db.tasks ++ [⟨db.nextId, name, m.option, m.id, content, due⟩]
    task_students := db.task_students ++
      student_ids.map (fun sid => ⟨db.nextId, sid⟩) }

/-- Database effect of the successful project-creation transaction. -/
def projectSuccDB (db : DB) (m : MentorProfile)
    (name content due : String) (student_ids : List Nat) : DB :=
  { db with
    nextId := db.nextId + 1
    projects := db.projects ++ [⟨db.nextId, name, m.option, m.id, content, due⟩]
    project_students := db.project_students ++
      student_ids.map (fun sid => ⟨db.nextId, sid⟩) }

/-- The `create_task` view (also serving `create_project`): forbidden for
non-mentors; 404 when the mentor profile is missing; an empty selection is
rejected with a flash message before anything is written; inside
`transaction.atomic` the item is created and the selected profile ids are
bulk-added to its students relation — a selected id with no `StudentProfile`
row violates the m2m foreign-key constraint, the transaction rolls back, and
the exception becomes a flash message with no redirect. -/
def create_task (db : DB) (uid : Nat) (ty name content due : String)
    (student_ids : List Nat) : ViewOut :=
  match db.findUser uid with
  | none => ⟨HttpResp.notFound, [], db⟩
  | some u =>
    if u.user_type ≠ UserType.mentor then
      ⟨HttpResp.forbidden "Only mentors can create tasks.", [], db⟩
    else
      match db.mentorProfileOf uid with
      | none => ⟨HttpResp.notFound, [], db⟩
      | some m =>
        if student_ids.isEmpty then
          ⟨HttpResp.redirectTo "create_task",
            ["Please select at least one student."], db⟩
        else if student_ids.all (fun sid =>
            db.student_profiles.any (fun sp => sp.id == sid)) then
          if ty = "task" then
            ⟨HttpResp.redirectTo "create_task",
              ["Task created and assigned successfully."],
              taskSuccDB db m name content due student_ids⟩
          else
            ⟨HttpResp.redirectTo "create_task",
              ["Project created and assigned successfully."],
              projectSuccDB db m name content due student_ids⟩
        else
          ⟨HttpResp.render "create.html", ["Error: FOREIGN KEY constraint failed"], db⟩

/-- Database effect of a successful student signup transaction: a fresh
student user plus their `StudentProfile` under option `o`. -/
def signupSuccDB (db : DB)
    (username email first_name last_name phone : String) (o : OptionRow) : DB :=
  { db with
    nextId := db.nextId + 2
    users := db.users ++
      [⟨db.nextId, username, email, UserType.student,
        first_name, last_name, phone, "", ""⟩]
    student_profiles := db.student_profiles ++ [⟨db.nextId + 1, db.nextId, o.id⟩] }

/-- The `signup` view (student signup, POST branch, anonymous requester): an
existing username or email is rejected; an unknown option name raises
`Http404` inside the `try` block, caught as a flash message; otherwise one
transaction creates the student user and their `StudentProfile`. -/
def signup (db : DB)
    (username email _password first_name last_name phone optionName : String) : ViewOut :=
  if db.users.any (fun u => u.email == email || u.username == username) then
    ⟨HttpResp.redirectTo "signup", ["Username or email already taken."], db⟩
  else
    match db.options.find? (fun o => o.name == optionName) with
    | none =>
      ⟨HttpResp.redirectTo "signup",
        ["Error: No Option matches the given query."], db⟩
    | some o =>
      ⟨HttpResp.redirectTo "home", ["Account created successfully."],
        signupSuccDB db username email first_name last_name phone o⟩

/-- Database effect of a successful mentor signup transaction: a fresh mentor
user plus their `MentorProfile` under option `o`. -/
def mentorSignupSuccDB (db : DB)
    (username email first_name last_name phone : String) (o : OptionRow) : DB :=
  { db with
    nextId := db.nextId + 2
    users := db.users ++
      [⟨db.nextId, username, email, UserType.mentor,
        first_name, last_name, phone, "", ""⟩]
    mentor_profiles := db.mentor_profiles ++ [⟨db.nextId + 1, db.nextId, o.id⟩] }

/-- The `mentor_signup` view (POST branch, anonymous requester): an unknown
option is a caught `Http404`; an option that already has a mentor is rejected
before any insert; `create_user` with a taken username violates the username
uniqueness constraint inside `transaction.atomic` (rollback, flash message);
otherwise one transaction creates the mentor user and their `MentorProfile`. -/
def mentor_signup (db : DB)
    (username email _password first_name last_name phone optionName : String) : ViewOut :=
  match db.options.find? (fun o => o.name == optionName) with
  | none =>
    ⟨HttpResp.redirectTo "mentor_signup",
      ["Error: No Option matches the given query."], db⟩
  | some o =>
    if db.mentor_profiles.any (fun mp => mp.option == o.id) then
      ⟨HttpResp.redirectTo "mentor_signup",
        ["A mentor is already assigned to this option."], db⟩
    else if db.users.any (fun u => u.username == username) then
      ⟨HttpResp.redirectTo "mentor_signup",
        ["Error: UNIQUE constraint failed: base_user.username"], db⟩
    else
      ⟨HttpResp.redirectTo "home", ["Mentor account created successfully."],
        mentorSignupSuccDB db username email first_name last_name phone o⟩

/-- The update applied to the acting user's row by the POST branch of
`user_profile` (`user.save()` after overwriting the editable fields;
`user_type` is never touched). -/
def profileFieldsUpdate (uid : Nat)
    (username first_name last_name email phone bio skills : String) (v : User) : User :=
  if v.id == uid then
    { v with username := username, first_name := first_name,
             last_name := last_name, email := email, phone := phone,
             bio := bio, skills := skills }
  else v

/-- Database effect of a successful `user_profile` POST: the acting user's
row rewritten in place. -/
def profileUpdateDB (db : DB) (uid : Nat)
    (username first_name last_name email phone bio skills : String) : DB :=
  { db with users := db.users.map (profileFieldsUpdate uid
      username first_name last_name email phone bio skills) }

/-- The `user_profile` view (POST branch): a student without a profile hits
the `get_object_or_404` before the POST handling (404); saving a username
already taken by another user violates the uniqueness constraint (caught,
flash message, no change); otherwise the user row is rewritten in place. -/
def user_profile_update (db : DB) (uid : Nat)
    (username first_name last_name email phone bio skills : String) : ViewOut :=
  match db.findUser uid with
  | none => ⟨HttpResp.notFound, [], db⟩
  | some u =>
    if u.user_type = UserType.student ∧ db.studentProfileOf uid = none then
      ⟨HttpResp.notFound, [], db⟩
    else if db.users.any (fun v => !(v.id == uid) && v.username == username) then
      ⟨HttpResp.render "profile.html",
        ["Error: UNIQUE constraint failed: base_user.username"], db⟩
    else
      ⟨HttpResp.redirectTo "profile", ["Profile updated."],
        profileUpdateDB db uid username first_name last_name email phone bio skills⟩

/-- Django cascade semantics of `User.delete()`: the user row goes, the
`on_delete=CASCADE` foreign keys delete both profile kinds, the user's
reports and notifications, and then transitively the rows hanging off the
deleted profiles — progress and reactions off a `StudentProfile`, tasks and
projects off a `MentorProfile`, and through-table rows off either side. -/
def delete_user (db : DB) (uid : Nat) : DB :=
  let spDead := fun sid => db.student_profiles.any (fun sp => sp.id == sid && sp.user == uid)
  let mpDead := fun mid => db.mentor_profiles.any (fun mp => mp.id == mid && mp.user == uid)
  let taskDead := fun tid => db.tasks.any (fun t => t.id == tid && mpDead t.mentor)
  let projectDead := fun pid => db.projects.any (fun p => p.id == pid && mpDead p.mentor)
  { db with
    users := db.users.filter (fun u => !(u.id == uid))
    student_profiles := db.student_profiles.filter (fun sp => !(sp.user == uid))
    mentor_profiles := db.mentor_profiles.filter (fun mp => !(mp.user == uid))
    reports := db.reports.filter (fun r => !(r.student == uid))
    reactions := db.reactions.filter (fun e => !(spDead e.student))
    progress := db.progress.filter (fun p => !(spDead p.student))
    tasks := db.tasks.filter (fun t => !(mpDead t.mentor))
    projects := db.projects.filter (fun p => !(mpDead p.mentor))
    task_students := db.task_students.filter (fun ts =>
      !(spDead ts.student) && !(taskDead ts.task))
    project_students := db.project_students.filter (fun ps =>
      !(spDead ps.student) && !(projectDead ps.project))
    notifications := db.notifications.filter (fun n => !(n.user == uid)) }

/-- The fields of a report that only a mentor may influence or that identify
it: `(mark, student, option)`. Used to state the frame condition of
`edit_report`. -/
def reportFrame (r : Report) : Int × Nat × Nat :=
  (r.mark, r.student, r.option)

/-- The public mutating operations the state-machine claims quantify over:
student signup, mentor signup, and the profile update of `user_profile`. -/
inductive Op where
  | opSignup (username email _password first_name last_name phone optionName : String)
  | opMentorSignup (username email _password first_name last_name phone optionName : String)
  | opProfileUpdate (uid : Nat)
      (username first_name last_name email phone bio skills : String)
deriving Repr

/-- Database effect of one public operation. -/
def applyOp (db : DB) : Op → DB
  | Op.opSignup u e p f l ph o => (signup db u e p f l ph o).db
  | Op.opMentorSignup u e p f l ph o => (mentor_signup db u e p f l ph o).db
  | Op.opProfileUpdate uid u f l e ph b s =>
      (user_profile_update db uid u f l e ph b s).db

/-- An initial database: options (and course content) exist — they are
created by the site administrator, not by any public view — but there are no
users, profiles, or user-generated rows yet. -/
def initDB (opts : List OptionRow) (cs : List Course) : DB :=
  ⟨0, [], opts, [], [], [], [], [], [], [], cs, [], [], []⟩

/-- States reachable from an initial database through the public operations. -/
inductive Reachable : DB → Prop
  | init (opts : List OptionRow) (cs : List Course) : Reachable (initDB opts cs)
  | step (db : DB) (op : Op) : Reachable db → Reachable (applyOp db op)

/-- The inductive invariant of the public operations: primary keys of users
and profiles are below the fresh-id counter, user ids are pairwise distinct,
no user has both kinds of profile, and every option has at most one mentor. -/
structure Inv (db : DB) : Prop where
  usersFresh : ∀ u ∈ db.users, u.id < db.nextId
  usersNodup : db.users.Pairwise (fun a b => a.id ≠ b.id)
  spFresh : ∀ sp ∈ db.student_profiles, sp.user < db.nextId
  mpFresh : ∀ mp ∈ db.mentor_profiles, mp.user < db.nextId
  exclusive : ∀ sp ∈ db.student_profiles, ∀ mp ∈ db.mentor_profiles, sp.user ≠ mp.user
  mentorUnique : ∀ mp1 ∈ db.mentor_profiles, ∀ mp2 ∈ db.mentor_profiles,
    mp1.option = mp2.option → mp1 = mp2

/-- A sample world used to instantiate the theorems: one option, one student
(user 1 with profile 3), one mentor (user 2 with profile 4), two courses, one
report by the student. -/
def optionW : OptionRow := ⟨1, "Backend"⟩

/-- Sample student user. -/
def studentUserW : User :=
  ⟨1, "sara", "sara@mail.io", UserType.student, "Sara", "Lane", "670000000", "", ""⟩

/-- Sample mentor user. -/
def mentorUserW : User :=
  ⟨2, "mike", "mike@mail.io", UserType.mentor, "Mike", "Ross", "670000000", "", ""⟩

/-- Sample student profile (user 1, option 1). -/
def spW : StudentProfile := ⟨3, 1, 1⟩

/-- Sample mentor profile (user 2, option 1). -/
def mpW : MentorProfile := ⟨4, 2, 1⟩

/-- Sample course of order 1. -/
def courseW : Course := ⟨5, "Intro", 1, 1⟩

/-- Sample course of order 2. -/
def courseW2 : Course := ⟨6, "Advanced", 1, 2⟩

/-- Sample report owned by student user 1 under option 1, status draft,
mark 0. -/
def reportW : Report := ⟨7, "Day 1", "django", 5, "draft", "worked on views", 1, 1, 0⟩

/-- The sample database assembling the rows above. -/
def baseDB : DB :=
  ⟨20, [studentUserW, mentorUserW], [optionW], [mpW], [spW], [reportW],
    [], [], [], [], [courseW, courseW2], [], [], []⟩

/-- Database triggering the `in_bulk` keying bug of the `courses` view: the
student's only progress row has primary key 5 — numerically equal to the id
of course `courseW` — and records course `courseW2` (id 6) as completed. -/
def dbBulk : DB :=
  { baseDB with progress := [⟨5, 3, 6, true, false⟩] }

/-- Database for the cascade claim: the student additionally has a progress
row and an emoji reaction, and both users have a notification. -/
def dbCascade : DB :=
  { baseDB with
    progress := [⟨8, 3, 5, false, false⟩]
    reactions := [⟨9, 3, 5, "like"⟩]
    notifications := [⟨10, 1, "hello", false⟩, ⟨11, 2, "hi", false⟩] }

/-- First step of the sample reachable run: student signup of alice. -/
def dbStep1 : DB :=
  applyOp (initDB [optionW] [])
    (Op.opSignup "alice" "alice@mail.io" "pw" "Alice" "Low" "670000000" "Backend")

/-- Second step of the sample reachable run: mentor signup of bob on the same
option. -/
def dbStep2 : DB :=
  applyOp dbStep1
    (Op.opMentorSignup "bob" "bob@mail.io" "pw" "Bob" "May" "670000000" "Backend")

/-- The student profile created by the first step (alice is user 0). -/
def spStep : StudentProfile := ⟨1, 0, 1⟩

/-- The mentor profile created by the second step (bob is user 2). -/
def mpStep : MentorProfile := ⟨3, 2, 1⟩

/-- Mapping a function that only rewrites elements matched by a predicate is
the identity when no element matches. -/
theorem map_ite_id {α : Type} (p : α → Bool) (f : α → α) :
    ∀ l : List α, l.any p = false → (l.map fun x => if p x then f x else x) = l
  | [], _ => rfl
  | a :: t, h => by
    rw [List.any_cons, Bool.or_eq_false_iff] at h
    simp [h.1, map_ite_id p f t h.2]

/-- C7: for every student, the course listing computed by the `courses` view
contains exactly the courses whose option equals the student's option, and it
is sorted by the `order` field in ascending order. -/
theorem courses_listing_exact_and_sorted (db : DB) (uid : Nat) (sp : StudentProfile)
    (_hsp : db.studentProfileOf uid = some sp) :
    (∀ c : Course, c ∈ courses_listing db sp.option ↔
      c ∈ db.courses ∧ c.option = sp.option) ∧
    List.Sorted courseLE (courses_listing db sp.option) := by
  refine ⟨fun c => ?_, List.sorted_insertionSort courseLE _⟩
  unfold courses_listing
  rw [List.mem_insertionSort, List.mem_filter]
  simp

/-- C7 witness: in the sample database the listing of the sample student's
option is sorted, and membership matches the filter, at course `courseW`. -/
theorem courses_listing_witness :
    List.Sorted courseLE (courses_listing baseDB spW.option) :=
  (courses_listing_exact_and_sorted baseDB 1 spW rfl).2

/-- C6 (code bug): in `dbBulk` the student completed only course 6
(`courseW2`), so the spec says the next course is course 5 (`courseW`); but
the view keys the progress rows by their own primary key, the completed
progress row has primary key 5, and the code therefore skips course 5 and
returns course 6 — the course the student has already completed. -/
theorem next_course_in_bulk_divergence :
    next_course dbBulk spW.id optionW.id = some courseW2 ∧
    next_course_spec dbBulk spW.id optionW.id = some courseW ∧
    courseW ≠ courseW2 := by
  refine ⟨by decide, by decide, by decide⟩

/-- C2: a student's first reaction to a course succeeds (JSON `success`) and
stores exactly one new reaction row; the same student reacting to the same
course again hits the uniqueness constraint: JSON `failed` with the constraint
error and HTTP 400, and the stored reactions are left unchanged. -/
theorem react_course_unique_per_pair
    (db : DB) (uid cid : Nat) (emoji : String)
    (u : User) (sp : StudentProfile) (c : Course)
    (hu : db.findUser uid = some u)
    (hut : u.user_type = UserType.student)
    (he : emoji ≠ "")
    (hsp : db.studentProfileOf uid = some sp)
    (hc : db.courses.find? (fun x => x.id == cid) = some c)
    (hnew : db.reactions.any (fun r => r.student == sp.id && r.course == c.id) = false) :
    react_course db uid cid emoji = (HttpResp.jsonSuccess, reactSuccDB db sp.id c.id emoji) ∧
    (reactSuccDB db sp.id c.id emoji).reactions =
      db.reactions ++ [⟨db.nextId, sp.id, c.id, emoji⟩] ∧
    react_course (reactSuccDB db sp.id c.id emoji) uid cid emoji =
      (HttpResp.jsonFailed uniqueReactionErr 400, reactSuccDB db sp.id c.id emoji) := by
  have hu' : (reactSuccDB db sp.id c.id emoji).findUser uid = some u := hu
  have hsp' : (reactSuccDB db sp.id c.id emoji).studentProfileOf uid = some sp := hsp
  have hc' : (reactSuccDB db sp.id c.id emoji).courses.find? (fun x => x.id == cid) = some c := hc
  have hdup : (reactSuccDB db sp.id c.id emoji).reactions.any
      (fun r => r.student == sp.id && r.course == c.id) = true := by
    simp [reactSuccDB, List.any_append, hnew]
  refine ⟨?_, rfl, ?_⟩
  · simp [react_course, hu, hut, hsp, hc, hnew, he]
  · simp [react_course, hu', hut, hsp', hc', hdup, he]

/-- C2 witness: in the sample database the student (user 1) reacting to
course 5 succeeds once and fails with the uniqueness error the second time. -/
theorem react_course_unique_witness :
    react_course baseDB 1 5 "like" = (HttpResp.jsonSuccess, reactSuccDB baseDB 3 5 "like") ∧
    (reactSuccDB baseDB 3 5 "like").reactions =
      baseDB.reactions ++ [⟨baseDB.nextId, 3, 5, "like"⟩] ∧
    react_course (reactSuccDB baseDB 3 5 "like") 1 5 "like" =
      (HttpResp.jsonFailed uniqueReactionErr 400, reactSuccDB baseDB 3 5 "like") :=
  react_course_unique_per_pair baseDB 1 5 "like" studentUserW spW courseW
    rfl rfl (by decide) rfl rfl rfl

/-- C10: a first reaction by a student who has no progress record for the
course still succeeds — the reaction row is created, the JSON status is
`success`, and the `update(reacted=True)` touches zero rows, so the progress
table is unchanged and no progress record is created. -/
theorem react_course_no_progress_row
    (db : DB) (uid cid : Nat) (emoji : String)
    (u : User) (sp : StudentProfile) (c : Course)
    (hu : db.findUser uid = some u)
    (hut : u.user_type = UserType.student)
    (he : emoji ≠ "")
    (hsp : db.studentProfileOf uid = some sp)
    (hc : db.courses.find? (fun x => x.id == cid) = some c)
    (hnew : db.reactions.any (fun r => r.student == sp.id && r.course == c.id) = false)
    (hnp : db.progress.any (fun p => p.student == sp.id && p.course == c.id) = false) :
    react_course db uid cid emoji = (HttpResp.jsonSuccess, reactSuccDB db sp.id c.id emoji) ∧
    (reactSuccDB db sp.id c.id emoji).reactions =
      db.reactions ++ [⟨db.nextId, sp.id, c.id, emoji⟩] ∧
    (reactSuccDB db sp.id c.id emoji).progress = db.progress := by
  refine ⟨?_, rfl, ?_⟩
  · simp [react_course, hu, hut, hsp, hc, hnew, he]
  · exact map_ite_id (fun p => p.student == sp.id && p.course == c.id)
      (fun p => { p with reacted := true }) db.progress hnp

/-- C10 witness: in the sample database (no progress rows at all) the first
reaction succeeds and the progress table stays empty. -/
theorem react_course_no_progress_witness :
    react_course baseDB 1 5 "like" = (HttpResp.jsonSuccess, reactSuccDB baseDB 3 5 "like") ∧
    (reactSuccDB baseDB 3 5 "like").reactions =
      baseDB.reactions ++ [⟨baseDB.nextId, 3, 5, "like"⟩] ∧
    (reactSuccDB baseDB 3 5 "like").progress = baseDB.progress :=
  react_course_no_progress_row baseDB 1 5 "like" studentUserW spW courseW
    rfl rfl (by decide) rfl rfl rfl rfl

/-- C1 counterexample: in the sample database the mentor (user 2, a wrong
role for these student views) requesting the courses page gets a flash
message and a redirect to `home` — not the forbidden-access signal — and
requesting edit or delete of report 7 (owned by the student) gets a
not-found response. -/
theorem wrong_role_not_always_403 :
    (courses_view baseDB 2).resp = HttpResp.redirectTo "home" ∧
    (courses_view baseDB 2).flash = ["Only students can access courses."] ∧
    (edit_report baseDB 2 7 true "t" "g" 1 "draft" "c").resp = HttpResp.notFound ∧
    (delete_report baseDB 2 7 true).resp = HttpResp.notFound :=
  ⟨rfl, rfl, rfl, rfl⟩

/-- C1 amended: the student dashboard, report creation, mentor dashboard and
task creation views raise the forbidden-access signal (HTTP 403) on a
mismatched role; but the courses page answers a non-student with a flash
message and a redirect to `home` (no 403), and report edit/delete are scoped
by ownership instead of role — any requester without a matching owned report,
a wrong-role user in particular, receives a not-found response. -/
theorem role_gate_behavior
    (db : DB) (uid : Nat) (u : User) (isPost : Bool)
    (title tags : String) (hours : Int) (status content : String)
    (ty nm ct dd : String) (sids : List Nat) (pk : Nat)
    (hu : db.findUser uid = some u) :
    (u.user_type ≠ UserType.student →
      (index db uid).resp = HttpResp.forbidden "Only students can access this dashboard." ∧
      (create_report db uid isPost title tags hours status content).resp =
        HttpResp.forbidden "Only students can submit reports." ∧
      (courses_view db uid).resp = HttpResp.redirectTo "home" ∧
      (courses_view db uid).flash = ["Only students can access courses."] ∧
      (courses_view db uid).db = db) ∧
    (u.user_type ≠ UserType.mentor →
      (mentor_dashboard db uid).resp = HttpResp.forbidden "Unauthorized access." ∧
      (create_task db uid ty nm ct dd sids).resp =
        HttpResp.forbidden "Only mentors can create tasks." ∧
      (create_task db uid ty nm ct dd sids).db = db) ∧
    (db.reports.find? (fun r => r.id == pk && r.student == uid) = none →
      (edit_report db uid pk isPost title tags hours status content).resp =
        HttpResp.notFound ∧
      (delete_report db uid pk isPost).resp = HttpResp.notFound) := by
  refine ⟨fun hns => ?_, fun hnm => ?_, fun hnone => ?_⟩
  · have hm : u.user_type = UserType.mentor := by
      cases h : u.user_type
      · exact absurd h hns
      · rfl
    refine ⟨?_, ?_, ?_, ?_, ?_⟩ <;>
      simp [index, create_report, courses_view, hu, hm]
  · have hs : u.user_type = UserType.student := by
      cases h : u.user_type
      · rfl
      · exact absurd h hnm
    refine ⟨?_, ?_, ?_⟩ <;>
      simp [mentor_dashboard, create_task, hu, hs]
  · exact ⟨by simp [edit_report, hnone], by simp [delete_report, hnone]⟩

/-- C1 witness: the mentor of the sample database is forbidden from the
student dashboard. -/
theorem role_gate_witness :
    (index baseDB 2).resp = HttpResp.forbidden "Only students can access this dashboard." :=
  ((role_gate_behavior baseDB 2 mentorUserW true "t" "g" 1 "draft" "c"
      "task" "n" "c" "d" [] 7 rfl).1 (by decide)).1

/-- C4: only a mentor of the report's option can set its mark through a POST
on the view-report endpoint (a mentor of another option is forbidden and a
student POST changes nothing, while the owner can still view the stored
mark); the owner's edit endpoint rewrites title, tags, hours_worked, status
and content of the report but leaves mark, student and option of every report
unchanged. -/
theorem mark_mentor_exclusive
    (db : DB) (uid pk : Nat) (markVal : Int) (isPost : Bool)
    (title tags : String) (hours : Int) (status content : String)
    (u : User) (m : MentorProfile) (r : Report)
    (hr : db.reports.find? (fun x => x.id == pk) = some r)
    (hu : db.findUser uid = some u) :
    (u.user_type = UserType.mentor → db.mentorProfileOf uid = some m →
      r.option = m.option →
      (report_view db uid pk true markVal).db.reports =
        db.reports.map (fun x => if x.id == r.id then { x with mark := markVal } else x)) ∧
    (u.user_type = UserType.mentor → db.mentorProfileOf uid = some m →
      r.option ≠ m.option →
      report_view db uid pk true markVal =
        ⟨HttpResp.forbidden "You can only view reports from your option.", [], db⟩) ∧
    (u.user_type = UserType.student →
      (report_view db uid pk isPost markVal).db = db ∧
      (r.student = uid → (report_view db uid pk isPost markVal).resp =
        HttpResp.render "view-report.html")) ∧
    ((edit_report db uid pk isPost title tags hours status content).db.reports.map reportFrame
      = db.reports.map reportFrame) ∧
    (∀ r0, db.reports.find? (fun x => x.id == pk && x.student == uid) = some r0 →
      (edit_report db uid pk true title tags hours status content).db.reports =
        db.reports.map (fun x => if x.id == r0.id then
          { x with title := title, tags := tags, hours_worked := hours,
                   status := status, content := content } else x)) := by
  refine ⟨fun hm hmp hopt => ?_, fun hm hmp hopt => ?_, fun hs => ?_, ?_, fun r0 hr0 => ?_⟩
  · simp [report_view, hr, hu, hm, hmp, hopt]
  · simp [report_view, hr, hu, hm, hmp, hopt]
  · constructor
    · simp [report_view, hr, hu, hs, apply_ite]
    · intro hro
      simp [report_view, hr, hu, hs, hro]
  · unfold edit_report
    split
    · rfl
    · next r0 heq =>
      split
      · show (db.reports.map _).map reportFrame = db.reports.map reportFrame
        rw [List.map_map]
        refine List.map_congr_left ?_
        intro a _
        by_cases h : a.id = r0.id <;> simp [h, reportFrame]
      · rfl
  · simp [edit_report, hr0]

/-- C4 witness: in the sample database the mentor (user 2, same option as
report 7) setting mark 8 by POST rewrites exactly the mark of report 7. -/
theorem mark_mentor_witness :
    (report_view baseDB 2 7 true 8).db.reports =
      baseDB.reports.map (fun x => if x.id == reportW.id then { x with mark := 8 } else x) :=
  (mark_mentor_exclusive baseDB 2 7 8 true "t" "g" 1 "draft" "c"
    mentorUserW mpW reportW rfl rfl).1 rfl rfl rfl

/-- Case analysis of `create_task` once the mentor checks pass: empty
selection (no change), invalid selection (rolled back), task success, or
project success. -/
theorem create_task_cases
    (db : DB) (uid : Nat) (ty nm ct dd : String) (sids : List Nat)
    (u : User) (m : MentorProfile)
    (hu : db.findUser uid = some u)
    (hut : u.user_type = UserType.mentor)
    (hm : db.mentorProfileOf uid = some m) :
    (sids = [] ∧ create_task db uid ty nm ct dd sids =
      ⟨HttpResp.redirectTo "create_task", ["Please select at least one student."], db⟩) ∨
    (sids.all (fun sid => db.student_profiles.any (fun sp => sp.id == sid)) = false ∧
      create_task db uid ty nm ct dd sids =
        ⟨HttpResp.render "create.html", ["Error: FOREIGN KEY constraint failed"], db⟩) ∨
    (sids ≠ [] ∧ ty = "task" ∧ create_task db uid ty nm ct dd sids =
      ⟨HttpResp.redirectTo "create_task", ["Task created and assigned successfully."],
        taskSuccDB db m nm ct dd sids⟩) ∨
    (sids ≠ [] ∧ ty ≠ "task" ∧ create_task db uid ty nm ct dd sids =
      ⟨HttpResp.redirectTo "create_task", ["Project created and assigned successfully."],
        projectSuccDB db m nm ct dd sids⟩) := by
  have hne : u.user_type ≠ UserType.mentor ↔ False := by simp [hut]
  unfold create_task
  rw [hu]
  simp only [hut, hm, ne_eq, not_true_eq_false, if_false, ite_false]
  by_cases hemp : sids.isEmpty
  · refine Or.inl ⟨List.isEmpty_iff.mp hemp, ?_⟩
    simp [hemp]
  · have hnil : sids ≠ [] := fun h => hemp (by simp [h])
    by_cases hall : sids.all (fun sid => db.student_profiles.any (fun sp => sp.id == sid))
    · by_cases hty : ty = "task"
      · exact Or.inr (Or.inr (Or.inl ⟨hnil, hty, by simp [hemp, hall, hty]⟩))
      · exact Or.inr (Or.inr (Or.inr ⟨hnil, hty, by simp [hemp, hall, hty]⟩))
    · refine Or.inr (Or.inl ⟨by simpa using hall, ?_⟩)
      simp [hemp, hall]

/-- C5: with the mentor checks passed, an empty student selection is rejected
with a flash message and no change; every request that leaves the database
unchanged carries a flash message; the "every task/project has at least one
assigned student" invariant is preserved; and each newly created task or
project carries a through-table row for every selected student id — no task
or project row is committed without its student assignments. -/
theorem create_task_atomic
    (db : DB) (uid : Nat) (ty nm ct dd : String) (sids : List Nat)
    (u : User) (m : MentorProfile)
    (hu : db.findUser uid = some u)
    (hut : u.user_type = UserType.mentor)
    (hm : db.mentorProfileOf uid = some m) :
    (sids = [] → create_task db uid ty nm ct dd sids =
      ⟨HttpResp.redirectTo "create_task", ["Please select at least one student."], db⟩) ∧
    ((create_task db uid ty nm ct dd sids).db = db →
      (create_task db uid ty nm ct dd sids).flash ≠ []) ∧
    ((∀ t ∈ db.tasks, ∃ a ∈ db.task_students, a.task = t.id) →
      ∀ t ∈ (create_task db uid ty nm ct dd sids).db.tasks,
        ∃ a ∈ (create_task db uid ty nm ct dd sids).db.task_students, a.task = t.id) ∧
    ((∀ p ∈ db.projects, ∃ a ∈ db.project_students, a.project = p.id) →
      ∀ p ∈ (create_task db uid ty nm ct dd sids).db.projects,
        ∃ a ∈ (create_task db uid ty nm ct dd sids).db.project_students, a.project = p.id) ∧
    (∀ t ∈ (create_task db uid ty nm ct dd sids).db.tasks, t ∉ db.tasks →
      ∀ sid ∈ sids,
        TaskStudent.mk t.id sid ∈ (create_task db uid ty nm ct dd sids).db.task_students) ∧
    (∀ p ∈ (create_task db uid ty nm ct dd sids).db.projects, p ∉ db.projects →
      ∀ sid ∈ sids,
        ProjectStudent.mk p.id sid ∈ (create_task db uid ty nm ct dd sids).db.project_students) := by
  rcases create_task_cases db uid ty nm ct dd sids u m hu hut hm with
    ⟨hsid, hout⟩ | ⟨hall, hout⟩ | ⟨hnil, hty, hout⟩ | ⟨hnil, hty, hout⟩
  · rw [hout]
    refine ⟨fun _ => rfl, fun _ => by simp, fun h => h, fun h => h, ?_, ?_⟩
    · intro t ht hnt
      exact absurd ht hnt
    · intro p hp hnp
      exact absurd hp hnp
  · rw [hout]
    refine ⟨fun hsid => by rw [hsid] at hall; simp at hall, fun _ => by simp,
      fun h => h, fun h => h, ?_, ?_⟩
    · intro t ht hnt
      exact absurd ht hnt
    · intro p hp hnp
      exact absurd hp hnp
  · rw [hout]
    refine ⟨fun hsid => absurd hsid hnil, fun hdb => ?_, ?_, fun h => h, ?_, ?_⟩
    · exact absurd (congrArg DB.nextId hdb.symm) (by simp [taskSuccDB])
    · intro hinv t ht
      rcases List.mem_append.mp ht with h1 | h1
      · rcases hinv t h1 with ⟨a, ha, hat⟩
        exact ⟨a, List.mem_append.mpr (Or.inl ha), hat⟩
      · rcases List.exists_mem_of_ne_nil sids hnil with ⟨sid, hsid⟩
        rcases List.mem_singleton.mp h1 with rfl
        refine ⟨⟨db.nextId, sid⟩, ?_, rfl⟩
        exact List.mem_append.mpr (Or.inr (List.mem_map.mpr ⟨sid, hsid, rfl⟩))
    · intro t ht hnt sid hsid
      rcases List.mem_append.mp ht with h1 | h1
      · exact absurd h1 hnt
      · rcases List.mem_singleton.mp h1 with rfl
        exact List.mem_append.mpr (Or.inr (List.mem_map.mpr ⟨sid, hsid, rfl⟩))
    · intro p hp hnp
      exact absurd hp hnp
  · rw [hout]
    refine ⟨fun hsid => absurd hsid hnil, fun hdb => ?_, fun h => h, ?_, ?_, ?_⟩
    · exact absurd (congrArg DB.nextId hdb.symm) (by simp [projectSuccDB])
    · intro hinv p hp
      rcases List.mem_append.mp hp with h1 | h1
      · rcases hinv p h1 with ⟨a, ha, hap⟩
        exact ⟨a, List.mem_append.mpr (Or.inl ha), hap⟩
      · rcases List.exists_mem_of_ne_nil sids hnil with ⟨sid, hsid⟩
        rcases List.mem_singleton.mp h1 with rfl
        refine ⟨⟨db.nextId, sid⟩, ?_, rfl⟩
        exact List.mem_append.mpr (Or.inr (List.mem_map.mpr ⟨sid, hsid, rfl⟩))
    · intro t ht hnt
      exact absurd ht hnt
    · intro p hp hnp sid hsid
      rcases List.mem_append.mp hp with h1 | h1
      · exact absurd h1 hnp
      · rcases List.mem_singleton.mp h1 with rfl
        exact List.mem_append.mpr (Or.inr (List.mem_map.mpr ⟨sid, hsid, rfl⟩))

/-- C5 witness: in the sample database the mentor posting an empty student
selection gets the flash message back and the database is unchanged. -/
theorem create_task_witness :
    create_task baseDB 2 "task" "T1" "do the thing" "2026-01-01" [] =
      ⟨HttpResp.redirectTo "create_task", ["Please select at least one student."], baseDB⟩ :=
  (create_task_atomic baseDB 2 "task" "T1" "do the thing" "2026-01-01" []
    mentorUserW mpW rfl rfl rfl).1 rfl

/-- C9: deleting a user removes, in the same operation, the user row, the
user's student or mentor profile, every report they authored and every emoji
reaction made through their student profile — while every profile, report and
reaction belonging to another user survives unchanged (profile primary keys
are assumed distinct, as the database guarantees). -/
theorem delete_user_cascades
    (db : DB) (uid : Nat)
    (hids : (db.student_profiles.map (fun sp => sp.id)).Nodup) :
    (∀ u ∈ (delete_user db uid).users, u.id ≠ uid) ∧
    (∀ sp ∈ (delete_user db uid).student_profiles, sp.user ≠ uid) ∧
    (∀ mp ∈ (delete_user db uid).mentor_profiles, mp.user ≠ uid) ∧
    (∀ r ∈ (delete_user db uid).reports, r.student ≠ uid) ∧
    (∀ e ∈ (delete_user db uid).reactions, ∀ sp ∈ db.student_profiles,
      sp.id = e.student → sp.user ≠ uid) ∧
    (∀ sp ∈ db.student_profiles, sp.user ≠ uid →
      sp ∈ (delete_user db uid).student_profiles) ∧
    (∀ mp ∈ db.mentor_profiles, mp.user ≠ uid →
      mp ∈ (delete_user db uid).mentor_profiles) ∧
    (∀ r ∈ db.reports, r.student ≠ uid → r ∈ (delete_user db uid).reports) ∧
    (∀ e ∈ db.reactions, ∀ sp ∈ db.student_profiles,
      sp.id = e.student → sp.user ≠ uid → e ∈ (delete_user db uid).reactions) := by
  refine ⟨?_, ?_, ?_, ?_, ?_, ?_, ?_, ?_, ?_⟩
  · intro x hx
    simp [delete_user, List.mem_filter] at hx
    exact hx.2
  · intro x hx
    simp [delete_user, List.mem_filter] at hx
    exact hx.2
  · intro x hx
    simp [delete_user, List.mem_filter] at hx
    exact hx.2
  · intro x hx
    simp [delete_user, List.mem_filter] at hx
    exact hx.2
  · intro e he sp hsp hid
    simp [delete_user, List.mem_filter] at he
    intro huser
    exact he.2 sp hsp hid huser
  · intro sp hsp hne
    simp [delete_user, List.mem_filter]
    exact ⟨hsp, hne⟩
  · intro mp hmp hne
    simp [delete_user, List.mem_filter]
    exact ⟨hmp, hne⟩
  · intro r hr hne
    simp [delete_user, List.mem_filter]
    exact ⟨hr, hne⟩
  · intro e he sp hsp hid hne
    simp [delete_user, List.mem_filter]
    refine ⟨he, ?_⟩
    intro sp' hsp' hid'
    have : sp' = sp :=
      List.inj_on_of_nodup_map hids hsp' hsp (by rw [hid', hid])
    rw [this]
    exact hne

/-- C9 witness: after deleting user 1 in `dbCascade`, the mentor profile of
user 2 is still there (and belongs to a different user). -/
theorem delete_user_witness : mpW.user ≠ 1 :=
  (delete_user_cascades dbCascade 1 (by decide)).2.2.1 mpW (by decide)

/-- The database effect of `signup` is either nothing or the success
transaction. -/
theorem signup_db_cases (db : DB) (username email pw fn ln ph oname : String) :
    (signup db username email pw fn ln ph oname).db = db ∨
    ∃ o : OptionRow, db.options.find? (fun x => x.name == oname) = some o ∧
      (signup db username email pw fn ln ph oname).db =
        signupSuccDB db username email fn ln ph o := by
  unfold signup
  split
  · exact Or.inl rfl
  · split
    · exact Or.inl rfl
    · next o heq => exact Or.inr ⟨o, heq, rfl⟩

/-- The database effect of `mentor_signup` is either nothing or the success
transaction, which requires the option to have no mentor yet. -/
theorem mentor_signup_db_cases (db : DB) (username email pw fn ln ph oname : String) :
    (mentor_signup db username email pw fn ln ph oname).db = db ∨
    ∃ o : OptionRow, db.options.find? (fun x => x.name == oname) = some o ∧
      db.mentor_profiles.any (fun mp => mp.option == o.id) = false ∧
      (mentor_signup db username email pw fn ln ph oname).db =
        mentorSignupSuccDB db username email fn ln ph o := by
  unfold mentor_signup
  split
  · exact Or.inl rfl
  · next o heq =>
    split
    · exact Or.inl rfl
    · next hany =>
      split
      · exact Or.inl rfl
      · exact Or.inr ⟨o, heq, by simpa using hany, rfl⟩

/-- The database effect of `user_profile_update` is either nothing or the
in-place rewrite of the acting user's row. -/
theorem user_profile_update_db_cases (db : DB) (uid : Nat)
    (username fn ln email ph bio skills : String) :
    (user_profile_update db uid username fn ln email ph bio skills).db = db ∨
    (user_profile_update db uid username fn ln email ph bio skills).db =
      profileUpdateDB db uid username fn ln email ph bio skills := by
  unfold user_profile_update
  split
  · exact Or.inl rfl
  · split
    · exact Or.inl rfl
    · split
      · exact Or.inl rfl
      · exact Or.inr rfl

/-- The profile update never changes a user row's primary key. -/
theorem profileFieldsUpdate_id (uid : Nat) (a b c d e f g : String) (v : User) :
    (profileFieldsUpdate uid a b c d e f g v).id = v.id := by
  unfold profileFieldsUpdate
  split <;> rfl

/-- The profile update never changes a user row's `user_type`. -/
theorem profileFieldsUpdate_user_type (uid : Nat) (a b c d e f g : String) (v : User) :
    (profileFieldsUpdate uid a b c d e f g v).user_type = v.user_type := by
  unfold profileFieldsUpdate
  split <;> rfl

/-- The student-signup transaction preserves the invariant. -/
theorem inv_signupSuccDB (db : DB) (h : Inv db)
    (username email fn ln ph : String) (o : OptionRow) :
    Inv (signupSuccDB db username email fn ln ph o) := by
  constructor
  · intro x hx
    rcases List.mem_append.mp hx with h1 | h1
    · have := h.usersFresh x h1
      show x.id < db.nextId + 2
      omega
    · rcases List.mem_singleton.mp h1 with rfl
      show db.nextId < db.nextId + 2
      omega
  · refine List.pairwise_append.mpr ⟨h.usersNodup, List.pairwise_singleton _ _, ?_⟩
    intro a ha b hb
    rcases List.mem_singleton.mp hb with rfl
    have := h.usersFresh a ha
    show a.id ≠ db.nextId
    omega
  · intro sp hsp
    rcases List.mem_append.mp hsp with h1 | h1
    · have := h.spFresh sp h1
      show sp.user < db.nextId + 2
      omega
    · rcases List.mem_singleton.mp h1 with rfl
      show db.nextId < db.nextId + 2
      omega
  · intro mp hmp
    have := h.mpFresh mp hmp
    show mp.user < db.nextId + 2
    omega
  · intro sp hsp mp hmp
    rcases List.mem_append.mp hsp with h1 | h1
    · exact h.exclusive sp h1 mp hmp
    · rcases List.mem_singleton.mp h1 with rfl
      have := h.mpFresh mp hmp
      show db.nextId ≠ mp.user
      omega
  · exact h.mentorUnique

/-- The mentor-signup transaction preserves the invariant (the option had no
mentor before the insert). -/
theorem inv_mentorSignupSuccDB (db : DB) (h : Inv db)
    (username email fn ln ph : String) (o : OptionRow)
    (hany : db.mentor_profiles.any (fun mp => mp.option == o.id) = false) :
    Inv (mentorSignupSuccDB db username email fn ln ph o) := by
  have hnone : ∀ mp ∈ db.mentor_profiles, mp.option ≠ o.id := by
    intro mp hmp
    have := List.any_eq_false.mp hany mp hmp
    simpa using this
  constructor
  · intro x hx
    rcases List.mem_append.mp hx with h1 | h1
    · have := h.usersFresh x h1
      show x.id < db.nextId + 2
      omega
    · rcases List.mem_singleton.mp h1 with rfl
      show db.nextId < db.nextId + 2
      omega
  · refine List.pairwise_append.mpr ⟨h.usersNodup, List.pairwise_singleton _ _, ?_⟩
    intro a ha b hb
    rcases List.mem_singleton.mp hb with rfl
    have := h.usersFresh a ha
    show a.id ≠ db.nextId
    omega
  · intro sp hsp
    have := h.spFresh sp hsp
    show sp.user < db.nextId + 2
    omega
  · intro mp hmp
    rcases List.mem_append.mp hmp with h1 | h1
    · have := h.mpFresh mp h1
      show mp.user < db.nextId + 2
      omega
    · rcases List.mem_singleton.mp h1 with rfl
      show db.nextId < db.nextId + 2
      omega
  · intro sp hsp mp hmp
    rcases List.mem_append.mp hmp with h1 | h1
    · exact h.exclusive sp hsp mp h1
    · rcases List.mem_singleton.mp h1 with rfl
      have := h.spFresh sp hsp
      show sp.user ≠ db.nextId
      omega
  · intro mp1 hmp1 mp2 hmp2 hopt
    rcases List.mem_append.mp hmp1 with h1 | h1 <;>
      rcases List.mem_append.mp hmp2 with h2 | h2
    · exact h.mentorUnique mp1 h1 mp2 h2 hopt
    · rcases List.mem_singleton.mp h2 with rfl
      exact absurd hopt (hnone mp1 h1)
    · rcases List.mem_singleton.mp h1 with rfl
      exact absurd hopt.symm (hnone mp2 h2)
    · rw [List.mem_singleton.mp h1, List.mem_singleton.mp h2]

/-- The in-place profile rewrite preserves the invariant. -/
theorem inv_profileUpdateDB (db : DB) (h : Inv db) (uid : Nat)
    (username fn ln email ph bio skills : String) :
    Inv (profileUpdateDB db uid username fn ln email ph bio skills) := by
  constructor
  · intro x hx
    rcases List.mem_map.mp hx with ⟨v, hv, rfl⟩
    rw [profileFieldsUpdate_id]
    exact h.usersFresh v hv
  · refine List.pairwise_map.mpr ?_
    refine h.usersNodup.imp ?_
    intro a b hab
    rw [profileFieldsUpdate_id, profileFieldsUpdate_id]
    exact hab
  · exact h.spFresh
  · exact h.mpFresh
  · exact h.exclusive
  · exact h.mentorUnique

/-- Every public operation preserves the invariant. -/
theorem inv_applyOp (db : DB) (op : Op) (h : Inv db) : Inv (applyOp db op) := by
  cases op with
  | opSignup un em pw fn ln ph onm =>
    show Inv (signup db un em pw fn ln ph onm).db
    rcases signup_db_cases db un em pw fn ln ph onm with hc | ⟨o, _, hc⟩
    · rw [hc]; exact h
    · rw [hc]; exact inv_signupSuccDB db h un em fn ln ph o
  | opMentorSignup un em pw fn ln ph onm =>
    show Inv (mentor_signup db un em pw fn ln ph onm).db
    rcases mentor_signup_db_cases db un em pw fn ln ph onm with hc | ⟨o, _, hany, hc⟩
    · rw [hc]; exact h
    · rw [hc]; exact inv_mentorSignupSuccDB db h un em fn ln ph o hany
  | opProfileUpdate uid un fn ln em ph bio sk =>
    show Inv (user_profile_update db uid un fn ln em ph bio sk).db
    rcases user_profile_update_db_cases db uid un fn ln em ph bio sk with hc | hc
    · rw [hc]; exact h
    · rw [hc]; exact inv_profileUpdateDB db h uid un fn ln em ph bio sk

/-- Every reachable state satisfies the invariant. -/
theorem inv_of_reachable (db : DB) (h : Reachable db) : Inv db := by
  induction h with
  | init opts cs =>
    constructor <;> simp [initDB]
  | step db op _ ih => exact inv_applyOp db op ih

/-- Inside an invariant state, a user row is determined by its id. -/
theorem users_id_inj (db : DB) (h : Inv db) :
    ∀ u ∈ db.users, ∀ u' ∈ db.users, u'.id = u.id → u' = u := by
  intro u hu u' hu' hid
  by_cases heq : u' = u
  · exact heq
  · have hsym : Symmetric (fun a b : User => a.id ≠ b.id) := fun a b hab => hab.symm
    exact absurd hid (h.usersNodup.forall hsym hu' hu heq)

/-- No public operation changes the `user_type` of an existing user. -/
theorem role_stable (db : DB) (h : Inv db) (op : Op) :
    ∀ u ∈ db.users, ∀ u' ∈ (applyOp db op).users, u'.id = u.id →
      u'.user_type = u.user_type := by
  have hfreshAppend : ∀ (l : List User) (w : User),
      (∀ x ∈ db.users, x.id < db.nextId) → w.id = db.nextId →
      db.users ++ [w] = l →
      ∀ u ∈ db.users, ∀ u' ∈ l, u'.id = u.id → u'.user_type = u.user_type := by
    intro l w hfresh hw hl u hu u' hu' hid
    subst hl
    rcases List.mem_append.mp hu' with h1 | h1
    · rw [users_id_inj db h u hu u' h1 hid]
    · rcases List.mem_singleton.mp h1 with rfl
      have := hfresh u hu
      rw [hw] at hid
      omega
  intro u hu u' hu' hid
  cases op with
  | opSignup un em pw fn ln ph onm =>
    rcases signup_db_cases db un em pw fn ln ph onm with hc | ⟨o, _, hc⟩
    · rw [show (applyOp db (Op.opSignup un em pw fn ln ph onm)) =
          (signup db un em pw fn ln ph onm).db from rfl, hc] at hu'
      rw [users_id_inj db h u hu u' hu' hid]
    · rw [show (applyOp db (Op.opSignup un em pw fn ln ph onm)) =
          (signup db un em pw fn ln ph onm).db from rfl, hc] at hu'
      exact hfreshAppend _ _ h.usersFresh rfl rfl u hu u' hu' hid
  | opMentorSignup un em pw fn ln ph onm =>
    rcases mentor_signup_db_cases db un em pw fn ln ph onm with hc | ⟨o, _, _, hc⟩
    · rw [show (applyOp db (Op.opMentorSignup un em pw fn ln ph onm)) =
          (mentor_signup db un em pw fn ln ph onm).db from rfl, hc] at hu'
      rw [users_id_inj db h u hu u' hu' hid]
    · rw [show (applyOp db (Op.opMentorSignup un em pw fn ln ph onm)) =
          (mentor_signup db un em pw fn ln ph onm).db from rfl, hc] at hu'
      exact hfreshAppend _ _ h.usersFresh rfl rfl u hu u' hu' hid
  | opProfileUpdate uid un fn ln em ph bio sk =>
    rcases user_profile_update_db_cases db uid un fn ln em ph bio sk with hc | hc
    · rw [show (applyOp db (Op.opProfileUpdate uid un fn ln em ph bio sk)) =
          (user_profile_update db uid un fn ln em ph bio sk).db from rfl, hc] at hu'
      rw [users_id_inj db h u hu u' hu' hid]
    · rw [show (applyOp db (Op.opProfileUpdate uid un fn ln em ph bio sk)) =
          (user_profile_update db uid un fn ln em ph bio sk).db from rfl, hc] at hu'
      rcases List.mem_map.mp hu' with ⟨v, hv, rfl⟩
      rw [profileFieldsUpdate_id] at hid
      rw [profileFieldsUpdate_user_type, users_id_inj db h u hu v hv hid]

/-- C3: in every state reachable through the public operations (student
signup, mentor signup, profile updates), no user holds both a student and a
mentor profile, and no operation ever changes an existing user's role — in
particular the role is immutable once a profile of either kind exists. -/
theorem profiles_exclusive_and_role_immutable (db : DB) (h : Reachable db) :
    (∀ sp ∈ db.student_profiles, ∀ mp ∈ db.mentor_profiles, sp.user ≠ mp.user) ∧
    (∀ op : Op, ∀ u ∈ db.users, ∀ u' ∈ (applyOp db op).users, u'.id = u.id →
      u'.user_type = u.user_type) :=
  ⟨(inv_of_reachable db h).exclusive,
    fun op => role_stable db (inv_of_reachable db h) op⟩

/-- C3 witness: in the reachable sample state (alice signed up as student,
bob as mentor), the stored student profile and mentor profile belong to
different users. -/
theorem profiles_exclusive_witness : spStep.user ≠ mpStep.user :=
  (profiles_exclusive_and_role_immutable dbStep2
      (Reachable.step dbStep1 _ (Reachable.step (initDB [optionW] []) _
        (Reachable.init [optionW] [])))).1
    spStep (by decide) mpStep (by decide)

/-- C8: in every reachable state each option has at most one mentor profile,
and a mentor signup for an option that already has a mentor is rejected with
an error flash message, creating no user and no mentor profile. -/
theorem one_mentor_per_option (db : DB) (h : Reachable db)
    (username email pw fn ln ph oname : String) (o : OptionRow)
    (ho : db.options.find? (fun x => x.name == oname) = some o)
    (hm : db.mentor_profiles.any (fun mp => mp.option == o.id) = true) :
    (∀ mp1 ∈ db.mentor_profiles, ∀ mp2 ∈ db.mentor_profiles,
      mp1.option = mp2.option → mp1 = mp2) ∧
    mentor_signup db username email pw fn ln ph oname =
      ⟨HttpResp.redirectTo "mentor_signup",
        ["A mentor is already assigned to this option."], db⟩ := by
  refine ⟨(inv_of_reachable db h).mentorUnique, ?_⟩
  unfold mentor_signup
  rw [ho]
  simp [hm]

/-- C8 witness: in the reachable sample state where bob mentors the only
option, a second mentor signup for that option is rejected and changes
nothing. -/
theorem one_mentor_witness :
    mentor_signup dbStep2 "eve" "eve@mail.io" "pw" "Eve" "Nor" "670000000" "Backend" =
      ⟨HttpResp.redirectTo "mentor_signup",
        ["A mentor is already assigned to this option."], dbStep2⟩ :=
  (one_mentor_per_option dbStep2
      (Reachable.step dbStep1 _ (Reachable.step (initDB [optionW] []) _
        (Reachable.init [optionW] [])))
      "eve" "eve@mail.io" "pw" "Eve" "Nor" "670000000" "Backend"
      optionW rfl rfl).2

end AntcodePortal
